import Mathlib

/-!
Verification of the messengers-autoreply ingestion / dedup / auto-reply core.

Shallow embedding of the TypeScript sources:
* `src/api/api.ts`        — webhook handler `brevohook`, dedup map sweep, `/api/messages`
* `src/storage/pocketbase.ts` — store gateway (`findOrCreateChat`, `saveMessage`, …)
* `src/receiver/brevo.ts` — Brevo adapter (`processBrevoMessage`, `processAgentMessage`)
* `src/receiver/telegram.ts` — Telegram adapter (photo/text/voice handlers, `handleOpenAI`)
* responder (`getAIResponse`, `handleTextMessage`, `handleImageMessage`, `handleAudioMessage`)

External effects (PocketBase calls, HTTP fetches, OpenAI calls, clocks) are modelled
by explicit oracle records; each embedded function returns its result together with
the list of side effects it performed (messages persisted, chats saved, threads
created), so that the claims about "exactly one processing attempt", "message still
persisted", "handle overwritten" etc. are statements about those effect traces.
-/

namespace AutoReply

/-! ## Canonical data model (src/models/index.ts)

TypeScript union types are erased at runtime; sources, message types and response
modes flow through the program as plain strings (the adapters even cast arbitrary
webhook strings with `as MessageSource`), so they are embedded as `String`.
Optional fields are `Option`; the TS code tests them by falsiness, and for
`openAIThreadId` the code stores `""` for "no thread yet" and checks `if (!threadId)`,
which is true for both `undefined` and `""` — we embed it as `Option String` and
read it through a falsiness test that treats `some ""` like `none`. -/

structure Message where
  id : Option String
  platformMessageId : Option String
  source : String
  chatId : String
  type : String
  content : String
  mediaFileId : Option String
  isIncoming : Bool
  timestamp : Int
  senderId : String
  senderName : Option String
  responseMode : String
  deriving Repr, DecidableEq

structure Chat where
  id : Option String
  platformChatId : Option String
  source : String
  name : String
  updated : Int
  autoMode : Bool
  openAIThreadId : Option String
  deriving Repr, DecidableEq

/-- JS falsiness for an optional string: `undefined` and `""` are falsy. -/
def strFalsy : Option String → Bool
  | none => true
  | some s => s = ""

/-- JS `String.prototype.trim()`: strip leading and trailing whitespace. -/
def jsTrim (s : String) : String :=
  String.mk (((s.data.dropWhile Char.isWhitespace).reverse.dropWhile Char.isWhitespace).reverse)

/-! ## Dedup cache and webhook handler (src/api/api.ts)

`processedMessages` is a `Map<string, number>` from external message id to
first-seen epoch-millisecond timestamp; we embed it as an association list with
at most one entry per id (Map semantics). -/

abbrev DedupMap := List (String × Int)

def dedupHas (m : DedupMap) (id : String) : Bool :=
  m.any (fun e => e.1 = id)

/-- `processedMessages.set(id, now)`: replace-or-insert, Map semantics. -/
def dedupSet (m : DedupMap) (id : String) (now : Int) : DedupMap :=
  if dedupHas m id then m.map (fun e => if e.1 = id then (id, now) else e)
  else m ++ [(id, now)]

/-- The sweep body from api.ts lines 22–29: delete every entry with
`now - timestamp > 3600000`. -/
def dedupSweep (now : Int) (m : DedupMap) : DedupMap :=
  m.filter (fun e => ¬ (now - e.2 > 3600000))

/-- Shape of one element of the webhook body's `message` / `messages` payload;
only the fields the handler inspects. -/
structure WebhookMsg where
  id : String
  type : String
  text : Option String
  agentId : Option String
  agentName : Option String
  createdAt : Int
  fileIsImage : Option Bool
  fileLink : Option String
  deriving Repr, DecidableEq

structure Visitor where
  vid : String
  threadId : String
  source : String
  displayedName : String
  deriving Repr, DecidableEq

structure WebhookBody where
  message : Option WebhookMsg
  messages : Option (List WebhookMsg)
  eventName : Option String
  visitor : Visitor
  deriving Repr, DecidableEq

/-- A downstream processing attempt recorded by the handler: either
`processAgentMessage(body)` (which itself re-selects `body.message || body.messages[0]`)
or `processBrevoMessage(visitor, m, source, isIncoming)` on a particular message. -/
inductive ProcCall where
  | agent (m : WebhookMsg)
  | visitor (m : WebhookMsg) (source : String)
  deriving Repr, DecidableEq

/-- The message a processing attempt operates on. -/
def ProcCall.msg : ProcCall → WebhookMsg
  | .agent m => m
  | .visitor m _ => m

/-- `body.message || (body.messages && body.messages[0])` — JS `||` on possibly
undefined values; an empty `messages` array gives `messages[0] = undefined`. -/
def firstWebhookMsg (body : WebhookBody) : Option WebhookMsg :=
  match body.message with
  | some m => some m
  | none => match body.messages with
    | some ms => ms.head?
    | none => none

/-- The first `if` of the handler (api.ts line 83): hand the body to
`processAgentMessage` when `body.message?.type` or `body.messages[0]?.type` is
`agent`; `message` is the already-selected first webhook message that
`processAgentMessage` will re-select. -/
def agentCalls (body : WebhookBody) (message : WebhookMsg) : List ProcCall :=
  if ((match body.message with | some m => m.type == "agent" | none => false)
      || (match body.messages with
         | some ms => match ms.head? with
           | some m => m.type == "agent"
           | none => false
         | none => false)) then
    [ProcCall.agent message]
  else []

/-- The `conversationFragment` branch (api.ts lines 87–97): process
`body.messages[0]` when it is visitor-typed. -/
def fragCalls (body : WebhookBody) : List ProcCall :=
  if (body.eventName == some "conversationFragment"
      && (match body.messages with | some ms => ms.length > 0 | none => false)) then
    match body.messages with
    | some ms =>
      match ms.head? with
      | some m =>
        if m.type == "visitor" then
          [ProcCall.visitor m body.visitor.source]
        else []
      | none => []
    | none => []
  else []

/-- The `conversationStarted` branch (api.ts lines 99–109): process
`body.message` when it is visitor-typed. -/
def startCalls (body : WebhookBody) : List ProcCall :=
  if body.eventName == some "conversationStarted" then
    match body.message with
    | some m =>
      if m.type == "visitor" then
        [ProcCall.visitor m body.visitor.source]
      else []
    | none => []
  else []

/-- The `POST /brevohook/:secret` handler body (api.ts lines 66–112), with the
downstream `processAgentMessage` / `processBrevoMessage` calls reified as a trace.
Returns (response text, processing attempts in order, updated dedup map). -/
def brevohook (now : Int) (st : DedupMap) (body : WebhookBody) :
    String × List ProcCall × DedupMap :=
  match firstWebhookMsg body with
  | none => ("No message found in webhook", [], st)
  | some message =>
    if dedupHas st message.id then
      ("Duplicate message skipped", [], st)
    else
      ("Webhook received successfully",
       agentCalls body message ++ fragCalls body ++ startCalls body,
       dedupSet st message.id now)

/-- JS `a || b` on an optional string: the default replaces both `undefined` and `""`. -/
def jsOr (o : Option String) (d : String) : String :=
  if strFalsy o then d else o.getD ""

/-! ## Store Gateway, success-path model (src/storage/pocketbase.ts)

For claim C8 (idempotence of `findOrCreateChat`) errors are out of the picture
("two successful calls"), so the gateway is modelled against an explicit store
state: a list of persisted chat records in insertion order plus a fresh-id
counter.  `getFirstListItem(platformChatId="id")` returns the first record whose
`platformChatId` matches (note: the source filters on `platformChatId` only, not
on `source`); when none matches it raises 404, which `findOrCreateChat` turns
into the create path (`saveChat` on a chat without `id`, i.e. a `create`). -/

structure ChatRecord where
  rid : String
  platformChatId : String
  source : String
  name : String
  autoMode : Bool
  openAIThreadId : String
  updated : Int
  deriving Repr, DecidableEq

structure ChatStore where
  chats : List ChatRecord
  nextId : Nat
  deriving Repr, DecidableEq

def ChatStore.freshId (s : ChatStore) : String := "pb" ++ toString s.nextId

/-- `pb.collection('chats').getFirstListItem(\x7bplatformChatId="id"\x7d)`. -/
def storeLookupChat (s : ChatStore) (id : String) : Option ChatRecord :=
  s.chats.find? (fun r => r.platformChatId == id)

def chatOfRecord (r : ChatRecord) : Chat :=
  { id := some r.rid
    platformChatId := some r.platformChatId
    source := r.source
    name := r.name
    updated := r.updated
    autoMode := r.autoMode
    openAIThreadId := some r.openAIThreadId }

/-- The chat constructed in the not-found branch of `findOrCreateChat`
(pocketbase.ts lines 167–174): `autoMode=false`, empty thread handle,
`name || "Unknown"`; the store assigns the fresh record id. -/
def newChatRecord (s : ChatStore) (id source : String) (name : Option String)
    (now : Int) : ChatRecord :=
  { rid := s.freshId
    platformChatId := id
    source := source
    name := jsOr name "Unknown"
    autoMode := false
    openAIThreadId := ""
    updated := now }

/-- `findOrCreateChat` (pocketbase.ts lines 144–189), success path over the
explicit store: look up by platform id; on not-found build the fresh chat and
persist it via the `saveChat` create branch. `now` is `new Date()` at the
create site. -/
def findOrCreateChat (s : ChatStore) (id : String) (source : String)
    (name : Option String) (now : Int) : Chat × ChatStore :=
  match storeLookupChat s id with
  | some r => (chatOfRecord r, s)
  | none =>
    (chatOfRecord (newChatRecord s id source name now),
     { chats := s.chats ++ [newChatRecord s id source name now], nextId := s.nextId + 1 })

/-- Number of persisted chat records carrying a given (source, platformChatId) pair. -/
def pairCount (s : ChatStore) (source pid : String) : Nat :=
  (s.chats.filter (fun r => r.source == source && r.platformChatId == pid)).length

/-- Number of persisted chat records carrying a given platformChatId. -/
def pidCount (s : ChatStore) (pid : String) : Nat :=
  (s.chats.filter (fun r => r.platformChatId == pid)).length

/-! ## Store Gateway, failure model (src/storage/pocketbase.ts)

For the retry-policy claims the interesting part is the `catch` structure, so
each underlying PocketBase call is an oracle `Nat → Attempt α` giving the outcome
of the n-th attempt of that call.  `handleAuthError` (lines 30–45) re-authenticates
only for a 403 whose response message includes "perform this action" (session
expiry) and reports whether the refresh succeeded; `authOk` is the oracle for the
refresh outcome.  (`authRetryInProgress` is false at entry for every sequential
call, so it does not limit the recursion.) -/

inductive PBError where
  | authExpired403
  | forbidden403
  | badRequest400
  | notFound404
  | network
  deriving Repr, DecidableEq

inductive Attempt (α : Type) where
  | ok (a : α)
  | fail (e : PBError)
  deriving Repr, DecidableEq

/-- `handleAuthError` (pocketbase.ts lines 30–45): true iff the error is a
session-expiry 403 and the silent re-authentication succeeded. -/
def handleAuthError (authOk : Bool) : PBError → Bool
  | .authExpired403 => authOk
  | _ => false

/-- `saveMessage` (pocketbase.ts lines 47–70): a single `create` attempt; a 400
is logged, then every error is rethrown.  The catch block contains no call to
`handleAuthError` or `authenticate`, so the second component — the number of
re-authentications performed — is 0 on every path. -/
def saveMessage (attempts : Nat → Attempt Message) : Except PBError Message × Nat :=
  match attempts 0 with
  | .ok m => (.ok m, 0)
  | .fail e => (.error e, 0)

/-- `saveMediaFile` (pocketbase.ts lines 72–86): same shape as `saveMessage` —
one `create` attempt, log on 400/404, rethrow everything, no auth handling. -/
def saveMediaFile (attempts : Nat → Attempt String) : Except PBError String × Nat :=
  match attempts 0 with
  | .ok mid => (.ok mid, 0)
  | .fail e => (.error e, 0)

/-- `getMessageById` (pocketbase.ts lines 88–103).  On a 403 for which
`handleAuthError` succeeds it re-invokes itself; 400/404 yield `null`; other
errors are rethrown.  The self-recursion is unbounded in the source, so the
embedding takes fuel and returns `none` when the recursion exceeds it; the
second result component is the index of the attempt that settled the call
(= the number of retries performed). -/
def getMessageById (attempts : Nat → Attempt String) (authOk : Nat → Bool) :
    Nat → Nat → Option (Except PBError (Option String) × Nat)
  | 0, _ => none
  | fuel + 1, n =>
    match attempts n with
    | .ok rid => some (.ok (some rid), n)
    | .fail e =>
      if handleAuthError (authOk n) e then
        getMessageById attempts authOk fuel (n + 1)
      else if e == .badRequest400 || e == .notFound404 then
        some (.ok none, n)
      else
        some (.error e, n)

/-- `getChats` (pocketbase.ts lines 191–209), failure model: one `getList`
attempt; on a refreshable 403 re-invoke the whole operation; every other
error is rethrown. -/
def getChatsE (attempts : Nat → Attempt (List Chat)) (authOk : Nat → Bool) :
    Nat → Nat → Option (Except PBError (List Chat))
  | 0, _ => none
  | fuel + 1, n =>
    match attempts n with
    | .ok cs => some (.ok cs)
    | .fail e =>
      if handleAuthError (authOk n) e then
        getChatsE attempts authOk fuel (n + 1)
      else
        some (.error e)

/-- `getChatById` (pocketbase.ts lines 211–221), failure model: one `getOne`
attempt; on a refreshable 403 re-invoke; any other error is logged and
converted to `null` (the JS `return null` fallback). -/
def getChatByIdE (attempts : Nat → Attempt Chat) (authOk : Nat → Bool) :
    Nat → Nat → Option (Option Chat)
  | 0, _ => none
  | fuel + 1, n =>
    match attempts n with
    | .ok c => some (some c)
    | .fail e =>
      if handleAuthError (authOk n) e then
        getChatByIdE attempts authOk fuel (n + 1)
      else
        some none

/-- `saveChat` (pocketbase.ts lines 105–133), failure model: update/create
attempt; on a refreshable 403 re-invoke; 400/404 are logged and, like every
other error, rethrown. -/
def saveChatE (attempts : Nat → Attempt Chat) (authOk : Nat → Bool) :
    Nat → Nat → Option (Except PBError Chat)
  | 0, _ => none
  | fuel + 1, n =>
    match attempts n with
    | .ok c => some (.ok c)
    | .fail e =>
      if handleAuthError (authOk n) e then
        saveChatE attempts authOk fuel (n + 1)
      else
        some (.error e)

/-- Inner body of `findOrCreateChat` (pocketbase.ts lines 146–184): the lookup
with its catch — refreshable 403 re-invokes the whole operation, 400/404 take
the create path through `saveChat`, anything else is rethrown to the outer catch. -/
def findOrCreateChatInner (lookupA : Nat → Attempt Chat) (saveA : Nat → Attempt Chat)
    (authOk : Nat → Bool) : Nat → Nat → Option (Except PBError Chat)
  | 0, _ => none
  | fuel + 1, n =>
    match lookupA n with
    | .ok c => some (.ok c)
    | .fail e =>
      if handleAuthError (authOk n) e then
        findOrCreateChatInner lookupA saveA authOk fuel (n + 1)
      else if e == .badRequest400 || e == .notFound404 then
        saveChatE saveA authOk fuel 0
      else
        some (.error e)

/-- `findOrCreateChat`'s outer catch (pocketbase.ts lines 185–188): every error
escaping the inner body is logged and converted to `null`.  Result `some none`
is the JS `null` return; `none` means the unbounded auth-retry recursion
exceeded the fuel. -/
def findOrCreateChatE (lookupA saveA : Nat → Attempt Chat) (authOk : Nat → Bool)
    (fuel : Nat) : Option (Option Chat) :=
  match findOrCreateChatInner lookupA saveA authOk fuel 0 with
  | none => none
  | some (.ok c) => some (some c)
  | some (.error _) => some none

/-! ## Platform adapters (src/receiver/brevo.ts, src/receiver/telegram.ts)

The adapters' external calls are oracles; each handler returns the trace of
messages it successfully persisted via `saveMessage` (plus, for Brevo, the
outbound sends it performed).  `FetchOutcome` describes an HTTP download:
the promise rejects, resolves with `!response.ok`, or succeeds. -/

inductive FetchOutcome where
  | throws
  | notOk
  | ok
  deriving Repr, DecidableEq

structure BrevoWorld where
  chatResult : Option Chat
  fetchResult : FetchOutcome
  saveMediaResult : Attempt String
  saveMessageThrows : Bool
  aiResponse : String
  assistantEnvId : String
  deriving Repr, DecidableEq

/-- One `sendBrevoMessage(visitorId, text)` call. -/
structure BrevoSend where
  visitorId : String
  text : String
  deriving Repr, DecidableEq

/-- `processBrevoMessage` (brevo.ts lines 28–114).  Returns the messages
persisted and the outbound sends performed.  The whole body is wrapped in a
`try/catch` that only logs, so a thrown `saveMessage` ends the handler with an
empty trace rather than propagating. -/
def processBrevoMessage (w : BrevoWorld) (visitor : Visitor) (message : WebhookMsg)
    (platform : String) (isIncoming : Bool) : List Message × List BrevoSend :=
  match w.chatResult with
  | none => ([], [])
  | some chat =>
    if strFalsy chat.id then ([], [])
    else
      let msgType : String :=
        match message.fileIsImage with
        | none => "text"
        | some isImage => if isImage then "image" else "audio"
      let mediaFileId : Option String :=
        match message.fileIsImage with
        | none => none
        | some _ =>
          match message.fileLink with
          | none => none
          | some _ =>
            match w.fetchResult with
            | .throws => none
            | .notOk => none
            | .ok =>
              match w.saveMediaResult with
              | .ok mid => some mid
              | .fail _ => none
      let msg : Message :=
        { id := none
          platformMessageId := some message.id
          source := platform
          chatId := chat.id.getD ""
          type := msgType
          content := jsOr message.text ""
          mediaFileId := mediaFileId
          isIncoming := isIncoming
          timestamp := message.createdAt
          senderId := if isIncoming then visitor.vid else jsOr message.agentId w.assistantEnvId
          senderName := some (if isIncoming then visitor.displayedName
                              else jsOr message.agentName "OpenAI Assistant")
          responseMode := if isIncoming then "manual" else "auto" }
      if w.saveMessageThrows then ([], [])
      else if ¬ isIncoming then ([msg], [])
      else if chat.autoMode then
        ([msg], [{ visitorId := visitor.vid, text := w.aiResponse }])
      else ([msg], [])

/-- `processAgentMessage` (brevo.ts lines 14–26): drop echoes whose `agentId`
contains "Dummy", map the `widget` source tag to `instagram`, then hand off to
`processBrevoMessage` with `isIncoming=false`. -/
def processAgentMessage (w : BrevoWorld) (body : WebhookBody) : List Message × List BrevoSend :=
  match firstWebhookMsg body with
  | none => ([], [])
  | some message =>
    if (match message.agentId with
        | some a => a.containsSubstr "Dummy"
        | none => false) then
      ([], [])
    else
      let platform := if body.visitor.source == "widget" then "instagram" else body.visitor.source
      processBrevoMessage w body.visitor message platform false

/-- The fields of a grammy `Context` the Telegram handlers read. -/
structure TgCtx where
  chatId : String
  messageId : String
  text : Option String
  caption : Option String
  hasPhoto : Bool
  date : Int
  fromId : String
  firstName : Option String
  photoUniqueId : String
  deriving Repr, DecidableEq

structure TgWorld where
  getFileResult : Attempt String
  fetchResult : FetchOutcome
  saveMediaResult : Attempt String
  chatResult : Option Chat
  saveMessageThrows : Bool
  aiResponse : String
  saveAIMessageThrows : Bool
  sendThrows : Bool
  assistantEnvId : Option String
  now : Int
  deriving Repr, DecidableEq

/-- `handleOpenAI` (telegram.ts lines 157–179): obtain the reply (via
`getAIResponse`, which never throws — claim C5), persist it as an outbound
`responseMode="auto"` message, send it to Telegram; its own `try/catch` absorbs
failures, so the returned trace is the persisted messages only. -/
def handleOpenAI (w : TgWorld) (message : Message) : List Message :=
  let msg : Message :=
    { id := none
      platformMessageId := some ("auto_" ++ toString w.now)
      source := "telegram"
      chatId := message.chatId
      type := "text"
      content := w.aiResponse
      mediaFileId := none
      isIncoming := false
      timestamp := w.now
      senderId := w.assistantEnvId.getD "OpenAI"
      senderName := some "OpenAI Assistant"
      responseMode := "auto" }
  if w.saveAIMessageThrows then [] else [msg]

/-- `handleTgTextMessage` (telegram.ts lines 44–68).  There is no `try/catch`
here and no null check on the `findOrCreateChat` result: `chat!.id!` compiles to
a plain property access, so a `null` chat raises a TypeError that propagates out
of the handler (to grammy's `bot.catch`).  The embedding surfaces that as
`Except.error`. -/
def handleTgTextMessage (w : TgWorld) (ctx : TgCtx) : Except String (List Message) :=
  match ctx.text with
  | none => .ok []
  | some text =>
    match w.chatResult with
    | none => .error "TypeError: Cannot read properties of null (reading id)"
    | some chat =>
      let msg : Message :=
        { id := none
          platformMessageId := some ctx.messageId
          source := "telegram"
          chatId := chat.id.getD ""
          type := "text"
          content := text
          mediaFileId := none
          isIncoming := true
          timestamp := ctx.date * 1000
          senderId := ctx.fromId
          senderName := some (jsOr ctx.firstName "Unknown")
          responseMode := "manual" }
      if w.saveMessageThrows then .error "saveMessage failed"
      else if chat.autoMode then .ok (msg :: handleOpenAI w msg)
      else .ok [msg]

/-- `handleTgPhotoMessage` (telegram.ts lines 70–113).  The whole body is inside
`try/catch`; a failed download is turned into a `throw` before `saveMessage` is
ever reached, so on any download failure the handler ends with nothing
persisted. -/
def handleTgPhotoMessage (w : TgWorld) (ctx : TgCtx) : List Message :=
  if ¬ ctx.hasPhoto then []
  else
    match w.getFileResult with
    | .fail _ => []
    | .ok _ =>
      match w.fetchResult with
      | .throws => []
      | .notOk => []
      | .ok =>
        match w.saveMediaResult with
        | .fail _ => []
        | .ok fid =>
          match w.chatResult with
          | none => []
          | some chat =>
            let msg : Message :=
              { id := none
                platformMessageId := some ctx.messageId
                source := "telegram"
                chatId := chat.id.getD ""
                type := "image"
                content := jsOr ctx.caption ""
                mediaFileId := some fid
                isIncoming := true
                timestamp := ctx.date * 1000
                senderId := ctx.fromId
                senderName := some (jsOr ctx.firstName "Unknown")
                responseMode := "manual" }
            if w.saveMessageThrows then []
            else if chat.autoMode then msg :: handleOpenAI w msg
            else [msg]

/-! ## `POST /api/messages` (src/api/api.ts lines 114–168) -/

structure ApiBody where
  chatId : Option String
  platformChatId : Option String
  source : Option String
  text : Option String
  msgType : Option String
  visitorId : Option String
  senderName : Option String
  deriving Repr, DecidableEq

structure ApiWorld where
  now : Int
  sendTelegramThrows : Bool
  brevoSendResult : Option String
  deriving Repr, DecidableEq

structure ApiResult where
  status : Nat
  saved : List Message
  constructed : Option Message
  deriving Repr, DecidableEq

/-- The `responseMode="manual"` `Message` value the `/api/messages` handler
constructs (api.ts lines 128–139). -/
def apiConstructedMsg (w : ApiWorld) (body : ApiBody) : Message :=
  { id := none
    platformMessageId := some ("api_" ++ toString w.now)
    source := body.source.getD ""
    chatId := body.chatId.getD ""
    type := jsOr body.msgType "text"
    content := body.text.getD ""
    mediaFileId := none
    isIncoming := false
    timestamp := w.now
    senderId := "api_client"
    senderName := some (jsOr body.senderName "API Client")
    responseMode := "manual" }

/-- The `/api/messages` handler.  It constructs the manual message value but
contains no `saveMessage` call, so `saved` is `[]` on every path; `constructed`
records the in-memory value for inspection.  (Destructuring default
`visitorId = 'text'` applies only to `undefined`; the subsequent
required-field check is by falsiness.) -/
def apiMessages (w : ApiWorld) (body : ApiBody) : ApiResult :=
  if strFalsy body.platformChatId || strFalsy body.source || strFalsy body.text
      || (body.visitorId.getD "text") == "" then
    { status := 400, saved := [], constructed := none }
  else if body.source.getD "" == "telegram" then
    if w.sendTelegramThrows then
      { status := 500, saved := [], constructed := some (apiConstructedMsg w body) }
    else
      { status := 200, saved := [], constructed := some (apiConstructedMsg w body) }
  else if body.source.getD "" == "instagram" || body.source.getD "" == "whatsapp"
      || body.source.getD "" == "brevo" then
    { status := 200, saved := [], constructed := some (apiConstructedMsg w body) }
  else
    { status := 400, saved := [], constructed := some (apiConstructedMsg w body) }

/-! ## Responder / assistant orchestrator (src/responder/openai.ts)

`getAIResponse` dispatches on the message type; the text path resolves or
creates the assistant thread, submits a run and polls it at a fixed 1000 ms
interval under a 30000 ms wall-clock deadline.  The OpenAI/store calls are
oracles in `AIWorld`; `runStatus n` is the status seen by the n-th
`runs.retrieve`.  In the idealized timing (each pass through the loop costs the
1-second sleep), the loop-body timeout check for the n-th status compares
`n * 1000 > 30000`.  Effects record the assistant threads created and the Chat
values persisted via `saveChat`. -/

structure AsstMsg where
  role : String
  contentType : String
  text : String
  deriving Repr, DecidableEq

structure AIWorld where
  assistantId : Option String
  threadCreate : Except String String
  chatLookup : Option Chat
  saveChatResult : Except String Unit
  msgCreate : Except String Unit
  runCreate : Except String String
  runStatus : Nat → String
  listLatest : Except String (Option AsstMsg)

structure RespEffects where
  threadsCreated : List String
  chatSaves : List Chat
  deriving Repr, DecidableEq

def isTerminalStatus (s : String) : Bool :=
  s == "failed" || s == "cancelled" || s == "expired"

/-- The polling loop of `handleTextMessage` (openai.ts lines 63–79): poll until
`completed`; a terminal status or passing the 30-second deadline aborts by
throwing. -/
def pollRunAux (status : Nat → String) (n : Nat) : Except String Unit :=
  if status n == "completed" then .ok ()
  else if isTerminalStatus (status n) then
    .error ("Run failed with status " ++ status n)
  else if h : n * 1000 > 30000 then .error "Response timed out after 30 seconds"
  else pollRunAux status (n + 1)
termination_by 32 - n
decreasing_by simp at h ⊢; omega

/-- Thread-submission tail of `handleTextMessage` (openai.ts lines 54–95):
append the user message, create the run, poll, then read back the newest thread
message, which must be assistant-authored text. -/
def runThread (w : AIWorld) (_message : Message) : Except String String :=
  match w.msgCreate with
  | .error e => .error e
  | .ok _ =>
    match w.runCreate with
    | .error e => .error e
    | .ok _ =>
      match pollRunAux w.runStatus 0 with
      | .error e => .error e
      | .ok _ =>
        match w.listLatest with
        | .error e => .error e
        | .ok none => .error "No assistant response found"
        | .ok (some am) =>
          if am.role != "assistant" then .error "No assistant response found"
          else if am.contentType != "text" then
            .error ("Unexpected content type: " ++ am.contentType)
          else .ok am.text

/-- `handleTextMessage` (openai.ts lines 36–96).  `let threadId = openAIThreadId!`
followed by `if (!threadId)` treats both `undefined` and `""` as "no thread":
then a fresh thread is created, `getChatById(message.chatId)` is dereferenced
(`chat!.openAIThreadId = threadId` — a TypeError if the lookup returned null)
and the chat is saved with the new handle before the run is submitted. -/
def handleTextMessage (w : AIWorld) (message : Message) (openAIThreadId : Option String) :
    Except String String × RespEffects :=
  match w.assistantId with
  | none => (.error "OPENAI_ASSISTANT_ID is not defined in environment", ⟨[], []⟩)
  | some _ =>
    if strFalsy openAIThreadId then
      match w.threadCreate with
      | .error e => (.error e, ⟨[], []⟩)
      | .ok tid =>
        match w.chatLookup with
        | none => (.error "TypeError: Cannot set properties of null", ⟨[tid], []⟩)
        | some chat =>
          match w.saveChatResult with
          | .error e => (.error e, ⟨[tid], []⟩)
          | .ok _ =>
            (runThread w message, ⟨[tid], [{ chat with openAIThreadId := some tid }]⟩)
    else
      (runThread w message, ⟨[], []⟩)

structure ImgWorld where
  mediaRecordFound : Bool
  fetch : FetchOutcome
  visionResult : Except String (Option String)
  deriving Repr

/-- Lines 154–160 of openai.ts: quote the vision description alongside the
nested text-path reply; a failure of the nested call is absorbed by the inner
catch into the storage-error string. -/
def composeImageReply (d : String) (p : Except String String × RespEffects) :
    Except String String × RespEffects :=
  match p with
  | (.error _, eff) => (.ok "Не удалось получить изображение из хранилища.", eff)
  | (.ok resp, eff) =>
    (.ok ("📷 Описание изображения: \"" ++ d ++ "\"\n\n🤖 Ответ: " ++ resp), eff)

/-- Lines 226–231 of openai.ts: quote the transcript alongside the nested
text-path reply; a failure of the nested call is absorbed into the audio
error string. -/
def composeAudioReply (t : String) (p : Except String String × RespEffects) :
    Except String String × RespEffects :=
  match p with
  | (.error _, eff) => (.ok "Произошла ошибка при обработке аудиосообщения.", eff)
  | (.ok resp, eff) =>
    (.ok ("📝 Распознанный текст: \"" ++ t ++ "\"\n\n🤖 Ответ: " ++ resp), eff)

/-- `handleImageMessage` (openai.ts lines 98–166).  `getFileToken`/`getFileUrl`
catch internally and always return a string; a missing media record makes
`mediaRecord.file` raise, caught by the inner catch.  On a successful vision
description the text path is re-invoked **without a thread handle**
(`handleTextMessage(textMessage)`, line 154), and an inner-catch failure after
that still keeps whatever thread-creation effects already happened. -/
def handleImageMessage (w : AIWorld) (iw : ImgWorld) (message : Message) :
    Except String String × RespEffects :=
  match message.mediaFileId with
  | none => (.ok "Изображение не найдено.", ⟨[], []⟩)
  | some _ =>
    if ¬ iw.mediaRecordFound then
      (.ok "Не удалось получить изображение из хранилища.", ⟨[], []⟩)
    else
      match iw.fetch with
      | .throws => (.ok "Не удалось получить изображение из хранилища.", ⟨[], []⟩)
      | .notOk => (.ok "Ошибка доступа к файлу.", ⟨[], []⟩)
      | .ok =>
        match iw.visionResult with
        | .error _ => (.ok "Не удалось получить изображение из хранилища.", ⟨[], []⟩)
        | .ok contentOpt =>
          let imageDescription := jsOr contentOpt "Не удалось проанализировать изображение."
          let contextualContent :=
            if message.content == "" then
              "[Содержание изображения: " ++ imageDescription ++ "]"
            else
              message.content ++ "\n\n[Содержание изображения: " ++ imageDescription ++ "]"
          composeImageReply imageDescription
            (handleTextMessage w { message with content := contextualContent, type := "text" } none)

structure AudioWorld where
  mediaRecordFound : Bool
  fetch : FetchOutcome
  convertThrows : Bool
  transcriptionThrows : Bool
  transcriptionOk : Bool
  transcript : Option String
  deriving Repr

/-- `handleAudioMessage` (openai.ts lines 168–237): download, re-encode for
telegram sources, transcribe; an empty transcript yields the dedicated
"could not recognize" reply without invoking the text path; a non-empty one is
fed to `handleTextMessage(textMessage)` — again with no thread handle. -/
def handleAudioMessage (w : AIWorld) (aw : AudioWorld) (message : Message) :
    Except String String × RespEffects :=
  match message.mediaFileId with
  | none => (.ok "Аудиофайл не найден.", ⟨[], []⟩)
  | some _ =>
    if ¬ aw.mediaRecordFound then
      (.ok "Произошла ошибка при обработке аудиосообщения.", ⟨[], []⟩)
    else
      match aw.fetch with
      | .throws => (.ok "Произошла ошибка при обработке аудиосообщения.", ⟨[], []⟩)
      | .notOk => (.ok "Ошибка доступа к аудиофайлу.", ⟨[], []⟩)
      | .ok =>
        if message.source == "telegram" ∧ aw.convertThrows then
          (.ok "Произошла ошибка при обработке аудиосообщения.", ⟨[], []⟩)
        else if aw.transcriptionThrows then
          (.ok "Произошла ошибка при обработке аудиосообщения.", ⟨[], []⟩)
        else if ¬ aw.transcriptionOk then
          (.ok "Не удалось распознать аудио.", ⟨[], []⟩)
        else
          let transcribedText := aw.transcript
          if strFalsy transcribedText ∨ jsTrim (transcribedText.getD "") == "" then
            (.ok "Не удалось распознать текст в аудиосообщении.", ⟨[], []⟩)
          else
            composeAudioReply (transcribedText.getD "")
              (handleTextMessage w
                { message with content := transcribedText.getD "", type := "text" } none)

/-- The type dispatch at the top of `getAIResponse` (openai.ts lines 21–29). -/
def dispatchMessage (w : AIWorld) (iw : ImgWorld) (aw : AudioWorld) (message : Message)
    (threadId : Option String) : Except String String × RespEffects :=
  if message.type == "voice" || message.type == "audio" then
    handleAudioMessage w aw message
  else if message.type == "image" then
    handleImageMessage w iw message
  else
    handleTextMessage w message threadId

/-- The fixed apology reply of `getAIResponse`'s catch-all (openai.ts line 32). -/
def apologyReply : String := "Извините, произошла ошибка при обработке запроса."

/-- `getAIResponse` (openai.ts lines 18–34): dispatch, catching any exception
into the fixed apology string.  Always yields a plain reply string. -/
def getAIResponse (w : AIWorld) (iw : ImgWorld) (aw : AudioWorld) (message : Message)
    (threadId : Option String) : String × RespEffects :=
  match dispatchMessage w iw aw message threadId with
  | (.ok s, eff) => (s, eff)
  | (.error _, eff) => (apologyReply, eff)

/-! ## Shared lemmas about the dedup cache -/

theorem mem_dedupSweep {now : Int} {e : String × Int} {st : DedupMap}
    (hmem : e ∈ st) (h : now - e.2 ≤ 3600000) : e ∈ dedupSweep now st := by
  simp only [dedupSweep, List.mem_filter, decide_eq_true_eq]
  exact ⟨hmem, by omega⟩

theorem mem_sweeps_foldl {e : String × Int} : ∀ (sweeps : List Int) (st : DedupMap),
    e ∈ st → (∀ s ∈ sweeps, s - e.2 ≤ 3600000) →
    e ∈ sweeps.foldl (fun st s => dedupSweep s st) st := by
  intro sweeps
  induction sweeps with
  | nil => intro st h _; simpa using h
  | cons s rest ih =>
    intro st h hs
    simp only [List.foldl_cons]
    exact ih _ (mem_dedupSweep h (hs s (by simp))) (fun x hx => hs x (by simp [hx]))

theorem dedupHas_of_mem {st : DedupMap} {id : String} {ts : Int} (h : (id, ts) ∈ st) :
    dedupHas st id = true := by
  simp only [dedupHas, List.any_eq_true]
  exact ⟨(id, ts), h, by simp⟩

theorem dedupSet_not_seen {st : DedupMap} {id : String} {now : Int}
    (h : dedupHas st id = false) : dedupSet st id now = st ++ [(id, now)] := by
  simp [dedupSet, h]

theorem agentCalls_msg (body : WebhookBody) (m : WebhookMsg) :
    ∀ c ∈ agentCalls body m, c.msg = m := by
  intro c hc
  unfold agentCalls at hc
  split at hc <;> simp_all [ProcCall.msg]

theorem fragCalls_msg (body : WebhookBody) (m0 : WebhookMsg)
    (h1 : body.message = none) (hf : firstWebhookMsg body = some m0) :
    ∀ c ∈ fragCalls body, c.msg = m0 := by
  intro c hc
  cases hms : body.messages with
  | none => simp [fragCalls, hms] at hc
  | some ms =>
    have hhead : ms.head? = some m0 := by
      simpa [firstWebhookMsg, h1, hms] using hf
    simp only [fragCalls, hms, hhead] at hc
    split at hc
    · split at hc <;> simp_all [ProcCall.msg]
    · simp at hc

theorem startCalls_none (body : WebhookBody) (h1 : body.message = none) :
    startCalls body = [] := by
  unfold startCalls
  split <;> simp [h1]

/-- The spec's §8 scenario message and body, used as concrete witnesses. -/
def sampleMsg : WebhookMsg :=
  { id := "m1", type := "visitor", text := some "Hola", agentId := none, agentName := none,
    createdAt := 1700000000000, fileIsImage := none, fileLink := none }

def sampleVisitor : Visitor :=
  { vid := "v1", threadId := "t1", source := "whatsapp", displayedName := "Ana" }

def sampleBody : WebhookBody :=
  { message := some sampleMsg, messages := none,
    eventName := some "conversationStarted", visitor := sampleVisitor }

/-- C1. For two webhook deliveries carrying the same external message id, the
second arriving within one hour of the first (with any number of dedup-map
sweeps in between, all at times no later than the second delivery): the first
delivery — here in the `conversationStarted`/`visitor` shape — performs exactly
one downstream processing attempt, and the second is acknowledged with
"Duplicate message skipped" while performing none and leaving the cache
unchanged: an id seen within the last hour is never reprocessed. -/
theorem C1_dedup_one_processing (st0 : DedupMap) (body1 body2 : WebhookBody)
    (m m2 : WebhookMsg) (t0 t1 : Int) (sweeps : List Int)
    (h1 : body1.message = some m) (h2 : body1.messages = none)
    (h3 : body1.eventName = some "conversationStarted") (h4 : m.type = "visitor")
    (h5 : dedupHas st0 m.id = false)
    (h6 : firstWebhookMsg body2 = some m2) (h7 : m2.id = m.id)
    (h8 : ∀ s ∈ sweeps, s ≤ t1) (h9 : t1 - t0 ≤ 3600000) :
    (brevohook t0 st0 body1).2.1 = [ProcCall.visitor m body1.visitor.source] ∧
    brevohook t1 (sweeps.foldl (fun st s => dedupSweep s st) (brevohook t0 st0 body1).2.2) body2
      = ("Duplicate message skipped", [],
         sweeps.foldl (fun st s => dedupSweep s st) (brevohook t0 st0 body1).2.2) := by
  have hfirst : firstWebhookMsg body1 = some m := by
    simp [firstWebhookMsg, h1]
  have hrun : brevohook t0 st0 body1 =
      ("Webhook received successfully", [ProcCall.visitor m body1.visitor.source],
        dedupSet st0 m.id t0) := by
    simp [brevohook, hfirst, h5, agentCalls, fragCalls, startCalls, h1, h2, h3, h4]
  set st2 := sweeps.foldl (fun st s => dedupSweep s st) (brevohook t0 st0 body1).2.2 with hst2
  have hmem2 : (m.id, t0) ∈ st2 := by
    rw [hst2]
    apply mem_sweeps_foldl
    · rw [hrun]
      simp [dedupSet_not_seen h5]
    · intro s hs
      have := h8 s hs
      simp only
      omega
  have hhas : dedupHas st2 m2.id = true := by
    rw [h7]; exact dedupHas_of_mem hmem2
  refine ⟨by rw [hrun], ?_⟩
  simp [brevohook, h6, hhas]

/-- C1 witness: the spec's §8 scenario delivered twice, one hour apart, with a
sweep half an hour in. -/
theorem C1_dedup_one_processing_witness :
    (brevohook 1700000000000 [] sampleBody).2.1
      = [ProcCall.visitor sampleMsg sampleBody.visitor.source] ∧
    brevohook 1700003600000
      ([(1700001800000 : Int)].foldl (fun st s => dedupSweep s st)
        (brevohook 1700000000000 [] sampleBody).2.2) sampleBody
      = ("Duplicate message skipped", [],
         [(1700001800000 : Int)].foldl (fun st s => dedupSweep s st)
          (brevohook 1700000000000 [] sampleBody).2.2) :=
  C1_dedup_one_processing [] sampleBody sampleBody sampleMsg sampleMsg
    1700000000000 1700003600000 [1700001800000]
    (by decide) (by decide) (by decide) (by decide) (by decide) (by decide) (by decide)
    (by decide) (by decide)

/-- C10. A webhook body carrying a `messages` array with more than one element
(and no single `message` field): only the first element is checked against the
dedup cache — the cache afterwards is either unchanged or extended by exactly
the first element's id — and every downstream processing attempt operates on
the first element; the later elements are silently discarded. -/
theorem C10_only_first_array_element (now : Int) (st : DedupMap) (body : WebhookBody)
    (m0 m1 : WebhookMsg) (rest : List WebhookMsg)
    (h1 : body.message = none) (h2 : body.messages = some (m0 :: m1 :: rest)) :
    (∀ c ∈ (brevohook now st body).2.1, c.msg = m0) ∧
    ((brevohook now st body).2.2 = st ∨
      (brevohook now st body).2.2 = dedupSet st m0.id now) := by
  have hfirst : firstWebhookMsg body = some m0 := by
    simp [firstWebhookMsg, h1, h2]
  constructor
  · intro c hc
    by_cases hdup : dedupHas st m0.id
    · simp [brevohook, hfirst, hdup] at hc
    · rw [Bool.not_eq_true] at hdup
      simp only [brevohook, hfirst, hdup, Bool.false_eq_true, if_false] at hc
      rcases List.mem_append.mp hc with h | h
      · rcases List.mem_append.mp h with h' | h'
        · exact agentCalls_msg body m0 c h'
        · exact fragCalls_msg body m0 h1 hfirst c h'
      · rw [startCalls_none body h1] at h
        simp at h
  · by_cases hdup : dedupHas st m0.id
    · left; simp [brevohook, hfirst, hdup]
    · right
      rw [Bool.not_eq_true] at hdup
      simp [brevohook, hfirst, hdup]

def sampleMsgA : WebhookMsg :=
  { id := "a1", type := "visitor", text := some "hi", agentId := none, agentName := none,
    createdAt := 0, fileIsImage := none, fileLink := none }

def sampleMsgB : WebhookMsg :=
  { id := "a2", type := "visitor", text := some "again", agentId := none, agentName := none,
    createdAt := 0, fileIsImage := none, fileLink := none }

def sampleArrayBody : WebhookBody :=
  { message := none, messages := some [sampleMsgA, sampleMsgB],
    eventName := some "conversationFragment", visitor := sampleVisitor }

/-- C10 witness: a two-element `conversationFragment` array body. -/
theorem C10_only_first_array_element_witness :
    (∀ c ∈ (brevohook 1700000000000 [] sampleArrayBody).2.1, c.msg = sampleMsgA) ∧
    ((brevohook 1700000000000 [] sampleArrayBody).2.2 = [] ∨
      (brevohook 1700000000000 [] sampleArrayBody).2.2 = dedupSet [] "a1" 1700000000000) :=
  C10_only_first_array_element 1700000000000 [] sampleArrayBody sampleMsgA sampleMsgB []
    (by decide) (by decide)

/-! ## C8: find-or-create idempotence -/

/-- C8. `findOrCreateChat` is idempotent: two successful calls with the same
(source, platformChatId) pair return chats with the same chat identifier, and
the find-or-create semantics preserves "at most one Chat record per
(source, platformChatId) pair" (the store starts with that property, e.g. empty). -/
theorem findOrCreateChat_found {s : ChatStore} {id : String} {r : ChatRecord}
    (source : String) (name : Option String) (now : Int)
    (h : storeLookupChat s id = some r) :
    findOrCreateChat s id source name now = (chatOfRecord r, s) := by
  simp [findOrCreateChat, h]

theorem findOrCreateChat_notfound {s : ChatStore} {id : String}
    (source : String) (name : Option String) (now : Int)
    (h : storeLookupChat s id = none) :
    findOrCreateChat s id source name now =
      (chatOfRecord (newChatRecord s id source name now),
       { chats := s.chats ++ [newChatRecord s id source name now], nextId := s.nextId + 1 }) := by
  simp [findOrCreateChat, h]

theorem storeLookupChat_append_new {s : ChatStore} {id : String}
    (source : String) (name : Option String) (now : Int) (k : Nat)
    (h : storeLookupChat s id = none) :
    storeLookupChat { chats := s.chats ++ [newChatRecord s id source name now], nextId := k } id
      = some (newChatRecord s id source name now) := by
  unfold storeLookupChat at h ⊢
  simp only
  rw [List.find?_append, h]
  simp [List.find?, newChatRecord]

theorem C8_findOrCreateChat_idempotent (s : ChatStore) (id source : String)
    (name name' : Option String) (now now' : Int)
    (huniq : ∀ src pid, pairCount s src pid ≤ 1) :
    (findOrCreateChat (findOrCreateChat s id source name now).2 id source name' now').1.id
      = (findOrCreateChat s id source name now).1.id ∧
    (∀ src pid, pairCount (findOrCreateChat s id source name now).2 src pid ≤ 1) := by
  cases h : storeLookupChat s id with
  | some r =>
    rw [findOrCreateChat_found source name now h]
    exact ⟨by rw [findOrCreateChat_found source name' now' h], huniq⟩
  | none =>
    have hall : ∀ x ∈ s.chats, ¬ (x.platformChatId == id) = true :=
      List.find?_eq_none.mp h
    rw [findOrCreateChat_notfound source name now h]
    refine ⟨?_, ?_⟩
    · rw [findOrCreateChat_found source name' now'
        (storeLookupChat_append_new source name now (s.nextId + 1) h)]
    · intro src pid
      simp only [pairCount, List.filter_append]
      by_cases hpid : pid = id
      · subst hpid
        have hnil : s.chats.filter (fun r => r.source == src && r.platformChatId == pid) = [] := by
          rw [List.filter_eq_nil_iff]
          intro x hx
          have := hall x hx
          simp_all
        rw [hnil, List.nil_append]
        simpa using List.length_filter_le _ [newChatRecord s pid source name now]
      · have hone : List.filter (fun r => r.source == src && r.platformChatId == pid)
            [newChatRecord s id source name now] = [] := by
          have : ((newChatRecord s id source name now).platformChatId == pid) = false := by
            simp [newChatRecord]
            exact fun hc => hpid hc.symm
          simp [List.filter, this]
        rw [hone, List.append_nil]
        exact huniq src pid

/-- C8 witness: two calls on the empty store. -/
theorem C8_findOrCreateChat_idempotent_witness :
    (findOrCreateChat (findOrCreateChat ⟨[], 0⟩ "t1" "whatsapp" (some "Ana") 5).2
        "t1" "whatsapp" (some "Ana") 9).1.id
      = (findOrCreateChat ⟨[], 0⟩ "t1" "whatsapp" (some "Ana") 5).1.id ∧
    (∀ src pid, pairCount (findOrCreateChat ⟨[], 0⟩ "t1" "whatsapp" (some "Ana") 5).2 src pid ≤ 1) :=
  C8_findOrCreateChat_idempotent ⟨[], 0⟩ "t1" "whatsapp" (some "Ana") (some "Ana") 5 9
    (fun src pid => by simp [pairCount])

/-! ## C2: session-expiry retry policy -/

def sampleChat : Chat :=
  { id := some "c1", platformChatId := some "t1", source := "whatsapp", name := "Ana",
    updated := 0, autoMode := false, openAIThreadId := some "" }

def sampleStoredMessage : Message :=
  { id := some "rec1", platformMessageId := some "m1", source := "whatsapp",
    chatId := "c1", type := "text", content := "Hola", mediaFileId := none,
    isIncoming := true, timestamp := 1700000000000, senderId := "v1",
    senderName := some "Ana", responseMode := "manual" }

/-- First create attempt fails with a session-expiry 403; a retry would succeed. -/
def cexSaveAttempts : Nat → Attempt Message := fun n =>
  if n = 0 then .fail .authExpired403 else .ok sampleStoredMessage

/-- Two consecutive session-expiry 403s, then success on the third attempt. -/
def cexGetAttempts : Nat → Attempt String := fun n =>
  if n < 2 then .fail .authExpired403 else .ok "rec1"

/-- C2 counterexample.  The claim says every listed operation answers a
session-expiry 403 with exactly one re-authentication and one retry, a second
403 being terminal.  (a) `saveMessage` performs zero re-authentications and
propagates the 403 immediately, even though a retry would have succeeded;
(b) in `getMessageById` a second 403 after a successful refresh is not
terminal: the call refreshes again and succeeds on its third attempt. -/
theorem C2_refresh_once_counterexample :
    saveMessage cexSaveAttempts = (Except.error PBError.authExpired403, 0) ∧
    getMessageById cexGetAttempts (fun _ => true) 10 0
      = some (Except.ok (some "rec1"), 2) := by
  constructor <;> rfl

theorem getMessageById_unbounded_retries (attempts : Nat → Attempt String)
    (authOk : Nat → Bool) (v : String) (h4 : ∀ k, authOk k = true) :
    ∀ (n j fuel : Nat), (∀ k, k < n → attempts (j + k) = .fail .authExpired403) →
      attempts (j + n) = .ok v → n < fuel →
      getMessageById attempts authOk fuel j = some (.ok (some v), j + n) := by
  intro n
  induction n with
  | zero =>
    intro j fuel _ hok hf
    cases fuel with
    | zero => omega
    | succ f =>
      simp only [Nat.add_zero] at hok
      simp [getMessageById, hok]
  | succ n ih =>
    intro j fuel h hok hf
    cases fuel with
    | zero => omega
    | succ f =>
      have h0 : attempts j = .fail .authExpired403 := by
        simpa using h 0 (Nat.succ_pos n)
      have hrec : getMessageById attempts authOk f (j + 1) = some (.ok (some v), j + 1 + n) := by
        apply ih
        · intro k hk
          have heq : j + 1 + k = j + (k + 1) := by omega
          rw [heq]
          exact h (k + 1) (by omega)
        · have heq : j + 1 + n = j + (n + 1) := by omega
          rw [heq]; exact hok
        · omega
      have heq : j + 1 + n = j + (n + 1) := by omega
      rw [heq] at hrec
      simp [getMessageById, h0, handleAuthError, h4 j, hrec]

theorem saveChatE_unbounded_retries (attempts : Nat → Attempt Chat)
    (authOk : Nat → Bool) (c : Chat) (h4 : ∀ k, authOk k = true) :
    ∀ (n j fuel : Nat), (∀ k, k < n → attempts (j + k) = .fail .authExpired403) →
      attempts (j + n) = .ok c → n < fuel →
      saveChatE attempts authOk fuel j = some (.ok c) := by
  intro n
  induction n with
  | zero =>
    intro j fuel _ hok hf
    cases fuel with
    | zero => omega
    | succ f =>
      simp only [Nat.add_zero] at hok
      simp [saveChatE, hok]
  | succ n ih =>
    intro j fuel h hok hf
    cases fuel with
    | zero => omega
    | succ f =>
      have h0 : attempts j = .fail .authExpired403 := by
        simpa using h 0 (Nat.succ_pos n)
      have hrec : saveChatE attempts authOk f (j + 1) = some (.ok c) := by
        apply ih
        · intro k hk
          have heq : j + 1 + k = j + (k + 1) := by omega
          rw [heq]
          exact h (k + 1) (by omega)
        · have heq : j + 1 + n = j + (n + 1) := by omega
          rw [heq]; exact hok
        · omega
      simp [saveChatE, h0, handleAuthError, h4 j, hrec]

theorem findOrCreateChatInner_unbounded_retries (lookupA saveA : Nat → Attempt Chat)
    (authOk : Nat → Bool) (c : Chat) (h4 : ∀ k, authOk k = true) :
    ∀ (n j fuel : Nat), (∀ k, k < n → lookupA (j + k) = .fail .authExpired403) →
      lookupA (j + n) = .ok c → n < fuel →
      findOrCreateChatInner lookupA saveA authOk fuel j = some (.ok c) := by
  intro n
  induction n with
  | zero =>
    intro j fuel _ hok hf
    cases fuel with
    | zero => omega
    | succ f =>
      simp only [Nat.add_zero] at hok
      simp [findOrCreateChatInner, hok]
  | succ n ih =>
    intro j fuel h hok hf
    cases fuel with
    | zero => omega
    | succ f =>
      have h0 : lookupA j = .fail .authExpired403 := by
        simpa using h 0 (Nat.succ_pos n)
      have hrec : findOrCreateChatInner lookupA saveA authOk f (j + 1) = some (.ok c) := by
        apply ih
        · intro k hk
          have heq : j + 1 + k = j + (k + 1) := by omega
          rw [heq]
          exact h (k + 1) (by omega)
        · have heq : j + 1 + n = j + (n + 1) := by omega
          rw [heq]; exact hok
        · omega
      simp [findOrCreateChatInner, h0, handleAuthError, h4 j, hrec]

theorem getChatsE_unbounded_retries (attempts : Nat → Attempt (List Chat))
    (authOk : Nat → Bool) (cs : List Chat) (h4 : ∀ k, authOk k = true) :
    ∀ (n j fuel : Nat), (∀ k, k < n → attempts (j + k) = .fail .authExpired403) →
      attempts (j + n) = .ok cs → n < fuel →
      getChatsE attempts authOk fuel j = some (.ok cs) := by
  intro n
  induction n with
  | zero =>
    intro j fuel _ hok hf
    cases fuel with
    | zero => omega
    | succ f =>
      simp only [Nat.add_zero] at hok
      simp [getChatsE, hok]
  | succ n ih =>
    intro j fuel h hok hf
    cases fuel with
    | zero => omega
    | succ f =>
      have h0 : attempts j = .fail .authExpired403 := by
        simpa using h 0 (Nat.succ_pos n)
      have hrec : getChatsE attempts authOk f (j + 1) = some (.ok cs) := by
        apply ih
        · intro k hk
          have heq : j + 1 + k = j + (k + 1) := by omega
          rw [heq]
          exact h (k + 1) (by omega)
        · have heq : j + 1 + n = j + (n + 1) := by omega
          rw [heq]; exact hok
        · omega
      simp [getChatsE, h0, handleAuthError, h4 j, hrec]

theorem getChatByIdE_unbounded_retries (attempts : Nat → Attempt Chat)
    (authOk : Nat → Bool) (c : Chat) (h4 : ∀ k, authOk k = true) :
    ∀ (n j fuel : Nat), (∀ k, k < n → attempts (j + k) = .fail .authExpired403) →
      attempts (j + n) = .ok c → n < fuel →
      getChatByIdE attempts authOk fuel j = some (some c) := by
  intro n
  induction n with
  | zero =>
    intro j fuel _ hok hf
    cases fuel with
    | zero => omega
    | succ f =>
      simp only [Nat.add_zero] at hok
      simp [getChatByIdE, hok]
  | succ n ih =>
    intro j fuel h hok hf
    cases fuel with
    | zero => omega
    | succ f =>
      have h0 : attempts j = .fail .authExpired403 := by
        simpa using h 0 (Nat.succ_pos n)
      have hrec : getChatByIdE attempts authOk f (j + 1) = some (some c) := by
        apply ih
        · intro k hk
          have heq : j + 1 + k = j + (k + 1) := by omega
          rw [heq]
          exact h (k + 1) (by omega)
        · have heq : j + 1 + n = j + (n + 1) := by omega
          rw [heq]; exact hok
        · omega
      simp [getChatByIdE, h0, handleAuthError, h4 j, hrec]

/-- C2 amended.  `saveMessage` and `saveMediaFile` apply no session-expiry
retry at all — any failure of their single create attempt (including a 403)
propagates with zero re-authentications; `getMessageById`, `saveChat`,
`findOrCreateChat` (on its lookup), `getChats` and `getChatById` each retry
after every refreshable 403 without bound: n consecutive session-expiry 403s
with successful refreshes are followed by an (n+1)-st attempt whose success
settles the call — a second 403 after a refresh is not terminal. -/
theorem C2_refresh_retry_behaviour
    (attemptsM : Nat → Attempt Message) (attemptsS : Nat → Attempt String)
    (attemptsG : Nat → Attempt String) (attemptsC lookupA saveA attemptsCB : Nat → Attempt Chat)
    (attemptsL : Nat → Attempt (List Chat)) (authOk : Nat → Bool)
    (eM eS : PBError) (n fuel : Nat) (v : String) (c cF cB : Chat) (cs : List Chat)
    (h1 : attemptsM 0 = .fail eM) (h2 : attemptsS 0 = .fail eS)
    (h3 : ∀ k, k < n → attemptsG k = .fail .authExpired403)
    (h3c : ∀ k, k < n → attemptsC k = .fail .authExpired403)
    (h3f : ∀ k, k < n → lookupA k = .fail .authExpired403)
    (h3l : ∀ k, k < n → attemptsL k = .fail .authExpired403)
    (h3b : ∀ k, k < n → attemptsCB k = .fail .authExpired403)
    (h4 : ∀ k, authOk k = true)
    (h5 : attemptsG n = .ok v) (h5c : attemptsC n = .ok c) (h5f : lookupA n = .ok cF)
    (h5l : attemptsL n = .ok cs) (h5b : attemptsCB n = .ok cB)
    (h6 : n < fuel) :
    saveMessage attemptsM = (.error eM, 0) ∧
    saveMediaFile attemptsS = (.error eS, 0) ∧
    getMessageById attemptsG authOk fuel 0 = some (.ok (some v), n) ∧
    saveChatE attemptsC authOk fuel 0 = some (.ok c) ∧
    findOrCreateChatInner lookupA saveA authOk fuel 0 = some (.ok cF) ∧
    getChatsE attemptsL authOk fuel 0 = some (.ok cs) ∧
    getChatByIdE attemptsCB authOk fuel 0 = some (some cB) := by
  refine ⟨by simp [saveMessage, h1], by simp [saveMediaFile, h2], ?_, ?_, ?_, ?_, ?_⟩
  · have := getMessageById_unbounded_retries attemptsG authOk v h4 n 0 fuel
      (by intro k hk; simpa using h3 k hk) (by simpa using h5) h6
    simpa using this
  · exact saveChatE_unbounded_retries attemptsC authOk c h4 n 0 fuel
      (by intro k hk; simpa using h3c k hk) (by simpa using h5c) h6
  · exact findOrCreateChatInner_unbounded_retries lookupA saveA authOk cF h4 n 0 fuel
      (by intro k hk; simpa using h3f k hk) (by simpa using h5f) h6
  · exact getChatsE_unbounded_retries attemptsL authOk cs h4 n 0 fuel
      (by intro k hk; simpa using h3l k hk) (by simpa using h5l) h6
  · exact getChatByIdE_unbounded_retries attemptsCB authOk cB h4 n 0 fuel
      (by intro k hk; simpa using h3b k hk) (by simpa using h5b) h6

/-- Two consecutive session-expiry 403s, then a successful chat result. -/
def cexChatAttempts : Nat → Attempt Chat := fun n =>
  if n < 2 then .fail .authExpired403 else .ok sampleChat

/-- Two consecutive session-expiry 403s, then a successful chat list. -/
def cexChatListAttempts : Nat → Attempt (List Chat) := fun n =>
  if n < 2 then .fail .authExpired403 else .ok [sampleChat]

/-- C2 witness: concrete oracles — failing saves, and reads/writes that see
two session-expiry 403s before succeeding on the third attempt. -/
theorem C2_refresh_retry_behaviour_witness :
    saveMessage cexSaveAttempts = (Except.error PBError.authExpired403, 0) ∧
    saveMediaFile (fun _ => .fail .network) = (Except.error PBError.network, 0) ∧
    getMessageById cexGetAttempts (fun _ => true) 10 0
      = some (Except.ok (some "rec1"), 2) ∧
    saveChatE cexChatAttempts (fun _ => true) 10 0 = some (Except.ok sampleChat) ∧
    findOrCreateChatInner cexChatAttempts (fun _ => Attempt.ok sampleChat)
      (fun _ => true) 10 0 = some (Except.ok sampleChat) ∧
    getChatsE cexChatListAttempts (fun _ => true) 10 0 = some (Except.ok [sampleChat]) ∧
    getChatByIdE cexChatAttempts (fun _ => true) 10 0 = some (some sampleChat) :=
  C2_refresh_retry_behaviour cexSaveAttempts (fun _ => .fail .network) cexGetAttempts
    cexChatAttempts cexChatAttempts (fun _ => Attempt.ok sampleChat) cexChatAttempts
    cexChatListAttempts (fun _ => true) PBError.authExpired403 PBError.network 2 10
    "rec1" sampleChat sampleChat sampleChat [sampleChat]
    (by decide) (by decide) (by decide) (by decide) (by decide) (by decide) (by decide)
    (fun k => rfl) (by decide) (by decide) (by decide) (by decide) (by decide) (by decide)

/-! ## C3: media download failure vs. message persistence -/

/-- A Brevo image event whose media link exists but whose download fails. -/
def sampleImageMsg : WebhookMsg :=
  { id := "m2", type := "visitor", text := some "look at this",
    agentId := none, agentName := none, createdAt := 1700000000000,
    fileIsImage := some true, fileLink := some "https://cdn.example/x.jpg" }

def brevoWorldDownloadFail : BrevoWorld :=
  { chatResult := some sampleChat, fetchResult := .notOk, saveMediaResult := .ok "mf1",
    saveMessageThrows := false, aiResponse := "", assistantEnvId := "asst" }

def tgWorldDownloadFail : TgWorld :=
  { getFileResult := .ok "photos/p.jpg", fetchResult := .notOk, saveMediaResult := .ok "mf1",
    chatResult := some sampleChat, saveMessageThrows := false, aiResponse := "",
    saveAIMessageThrows := false, sendThrows := false, assistantEnvId := none, now := 0 }

def samplePhotoCtx : TgCtx :=
  { chatId := "42", messageId := "7", text := none, caption := some "look",
    hasPhoto := true, date := 1700000000, fromId := "9", firstName := some "Bob",
    photoUniqueId := "u1" }

/-- C3 counterexample.  On the Telegram adapter an inbound photo whose download
returns a non-OK response is `throw`n before `saveMessage` is reached: the
handler persists nothing, contradicting "a media download failure never aborts
message persistence, on any adapter". -/
theorem C3_download_abort_counterexample :
    handleTgPhotoMessage tgWorldDownloadFail samplePhotoCtx = [] := by
  rfl

/-- C3 amended.  On the Brevo adapter a failed media download (rejected fetch
or non-OK response) still persists exactly one message, with `mediaFileId`
unset, the caption preserved and the media-kind type; on the Telegram photo
handler any download failure aborts the handler and nothing is persisted. -/
theorem C3_media_failure_persistence (w : BrevoWorld) (visitor : Visitor)
    (message : WebhookMsg) (platform : String) (inc : Bool) (chat : Chat) (b : Bool)
    (l : String) (tw : TgWorld) (ctx : TgCtx)
    (h1 : w.chatResult = some chat) (h2 : strFalsy chat.id = false)
    (h3 : message.fileIsImage = some b) (h4 : message.fileLink = some l)
    (h5 : w.fetchResult = .throws ∨ w.fetchResult = .notOk)
    (h6 : w.saveMessageThrows = false)
    (h7 : tw.fetchResult = .throws ∨ tw.fetchResult = .notOk) :
    (∃ m : Message, (processBrevoMessage w visitor message platform inc).1 = [m] ∧
      m.mediaFileId = none ∧ m.content = jsOr message.text "" ∧
      m.type = (if b then "image" else "audio")) ∧
    handleTgPhotoMessage tw ctx = [] := by
  constructor
  · refine ⟨{ id := none
              platformMessageId := some message.id
              source := platform
              chatId := chat.id.getD ""
              type := if b then "image" else "audio"
              content := jsOr message.text ""
              mediaFileId := none
              isIncoming := inc
              timestamp := message.createdAt
              senderId := if inc then visitor.vid else jsOr message.agentId w.assistantEnvId
              senderName := some (if inc then visitor.displayedName
                                  else jsOr message.agentName "OpenAI Assistant")
              responseMode := if inc then "manual" else "auto" }, ?_, rfl, rfl, rfl⟩
    rcases h5 with h5 | h5 <;>
      (simp only [processBrevoMessage, h1, h2, h3, h4, h5, h6, Bool.false_eq_true, if_false]
       split <;> try rfl)
    all_goals (split <;> rfl)
  · cases hgf : tw.getFileResult with
    | fail e => simp [handleTgPhotoMessage, hgf]
    | ok p => rcases h7 with h7 | h7 <;> simp [handleTgPhotoMessage, hgf, h7]

/-- C3 witness: concrete failed downloads on both adapters. -/
theorem C3_media_failure_persistence_witness :
    (∃ m : Message,
      (processBrevoMessage brevoWorldDownloadFail sampleVisitor sampleImageMsg
        "whatsapp" true).1 = [m] ∧
      m.mediaFileId = none ∧ m.content = jsOr sampleImageMsg.text "" ∧
      m.type = (if true then "image" else "audio")) ∧
    handleTgPhotoMessage tgWorldDownloadFail samplePhotoCtx = [] :=
  C3_media_failure_persistence brevoWorldDownloadFail sampleVisitor sampleImageMsg
    "whatsapp" true sampleChat true "https://cdn.example/x.jpg"
    tgWorldDownloadFail samplePhotoCtx
    (by decide) (by decide) (by decide) (by decide) (Or.inr (by decide)) (by decide)
    (Or.inr (by decide))

/-! ## C7: null-chat handling -/

def tgWorldNullChat : TgWorld :=
  { getFileResult := .ok "p", fetchResult := .ok, saveMediaResult := .ok "f",
    chatResult := none, saveMessageThrows := false, aiResponse := "r",
    saveAIMessageThrows := false, sendThrows := false, assistantEnvId := none, now := 0 }

def sampleTextCtx : TgCtx :=
  { chatId := "42", messageId := "8", text := some "hello", caption := none,
    hasPhoto := false, date := 1700000000, fromId := "9", firstName := some "Bob",
    photoUniqueId := "u1" }

def brevoWorldNullChat : BrevoWorld :=
  { chatResult := none, fetchResult := .ok, saveMediaResult := .ok "x",
    saveMessageThrows := false, aiResponse := "", assistantEnvId := "asst" }

/-- C7 counterexample.  The claim says every adapter that calls
`findOrCreateChat` checks the result for null before dereferencing; the
Telegram text handler does not — `chat!.id!` on a null chat raises a TypeError
that escapes the handler. -/
theorem C7_null_check_counterexample :
    handleTgTextMessage tgWorldNullChat sampleTextCtx
      = Except.error "TypeError: Cannot read properties of null (reading id)" := by
  rfl

/-- C7 amended.  `findOrCreateChat` itself converts every error escaping its
body into a logged `null` return instead of throwing; the Brevo adapter checks
that result for null and stops cleanly, but the Telegram text handler
dereferences it unchecked, so a null chat raises a TypeError out of the
handler. -/
theorem C7_null_handling (la sa : Nat → Attempt Chat) (authOk : Nat → Bool) (fuel : Nat)
    (e : PBError) (w : BrevoWorld) (tw : TgWorld) (visitor : Visitor) (msg : WebhookMsg)
    (platform : String) (inc : Bool) (ctx : TgCtx) (t : String)
    (hinner : findOrCreateChatInner la sa authOk fuel 0 = some (.error e))
    (hb : w.chatResult = none) (ht : tw.chatResult = none) (htext : ctx.text = some t) :
    findOrCreateChatE la sa authOk fuel = some none ∧
    processBrevoMessage w visitor msg platform inc = ([], []) ∧
    handleTgTextMessage tw ctx
      = Except.error "TypeError: Cannot read properties of null (reading id)" := by
  refine ⟨?_, ?_, ?_⟩
  · simp [findOrCreateChatE, hinner]
  · simp [processBrevoMessage, hb]
  · simp [handleTgTextMessage, htext, ht]

/-- C7 witness: a persistently failing lookup, plus both adapters facing a null
chat. -/
theorem C7_null_handling_witness :
    findOrCreateChatE (fun _ => .fail .network) (fun _ => .fail .network)
      (fun _ => true) 1 = some none ∧
    processBrevoMessage brevoWorldNullChat sampleVisitor sampleMsg "whatsapp" true = ([], []) ∧
    handleTgTextMessage tgWorldNullChat sampleTextCtx
      = Except.error "TypeError: Cannot read properties of null (reading id)" :=
  C7_null_handling (fun _ => .fail .network) (fun _ => .fail .network) (fun _ => true) 1
    PBError.network brevoWorldNullChat tgWorldNullChat sampleVisitor sampleMsg
    "whatsapp" true sampleTextCtx "hello"
    rfl (by decide) (by decide) (by decide)

/-! ## C9: response modes of persisted outbound messages -/

def apiWorldOk : ApiWorld :=
  { now := 1700000000000, sendTelegramThrows := false, brevoSendResult := some "x1" }

def apiBodyValid : ApiBody :=
  { chatId := some "c1", platformChatId := some "42", source := some "telegram",
    text := some "hi there", msgType := none, visitorId := none, senderName := none }

def tgWorldAutoReply : TgWorld :=
  { getFileResult := .ok "", fetchResult := .ok, saveMediaResult := .ok "",
    chatResult := none, saveMessageThrows := false, aiResponse := "ok!",
    saveAIMessageThrows := false, sendThrows := false,
    assistantEnvId := some "asst", now := 123 }

/-- The single message `handleOpenAI` persists under `tgWorldAutoReply`. -/
def sampleAutoReply : Message :=
  { id := none, platformMessageId := some "auto_123", source := "telegram",
    chatId := "c1", type := "text", content := "ok!", mediaFileId := none,
    isIncoming := false, timestamp := 123, senderId := "asst",
    senderName := some "OpenAI Assistant", responseMode := "auto" }

/-- C9 counterexample.  A valid `/api/messages` request is accepted (200) and
the handler builds a `responseMode="manual"` message — but persists nothing:
there is no `saveMessage` call on any path of the endpoint, so no message
"persisted via the direct send API" exists at all. -/
theorem C9_api_send_counterexample :
    apiMessages apiWorldOk apiBodyValid
      = { status := 200, saved := [],
          constructed := some
            { id := none, platformMessageId := some "api_1700000000000",
              source := "telegram", chatId := "c1", type := "text",
              content := "hi there", mediaFileId := none, isIncoming := false,
              timestamp := 1700000000000, senderId := "api_client",
              senderName := some "API Client", responseMode := "manual" } } := by
  rfl

/-- C9 amended.  Every message the responder path persists (Telegram
`handleOpenAI`, and the Brevo agent-echo path `processBrevoMessage` with
`isIncoming=false`) carries `isIncoming=false` and `responseMode="auto"`;
the direct send API constructs a `responseMode="manual"`, `isIncoming=false`
message but never persists it — its saved-message trace is empty on every
request. -/
theorem C9_response_modes (tw : TgWorld) (m : Message) (w : BrevoWorld)
    (visitor : Visitor) (message : WebhookMsg) (platform : String)
    (aw : ApiWorld) (body : ApiBody) :
    (∀ x ∈ handleOpenAI tw m, x.isIncoming = false ∧ x.responseMode = "auto") ∧
    (∀ x ∈ (processBrevoMessage w visitor message platform false).1,
        x.isIncoming = false ∧ x.responseMode = "auto") ∧
    (apiMessages aw body).saved = [] ∧
    (∀ x, (apiMessages aw body).constructed = some x →
        x.responseMode = "manual" ∧ x.isIncoming = false) := by
  refine ⟨?_, ?_, ?_, ?_⟩
  · intro x hx
    unfold handleOpenAI at hx
    split at hx <;> simp_all
  · intro x hx
    unfold processBrevoMessage at hx
    repeat' split at hx
    all_goals simp_all
  · unfold apiMessages
    repeat' split
    all_goals rfl
  · intro x hx
    unfold apiMessages at hx
    repeat' split at hx
    all_goals dsimp only at hx
    any_goals exact Option.noConfusion hx
    all_goals (rw [Option.some_inj] at hx; subst hx; exact ⟨rfl, rfl⟩)

/-- C9 witness: the concrete auto-reply persisted by `handleOpenAI` and the
concrete API request that persists nothing. -/
theorem C9_response_modes_witness :
    (sampleAutoReply.isIncoming = false ∧ sampleAutoReply.responseMode = "auto") ∧
    (apiMessages apiWorldOk apiBodyValid).saved = [] :=
  ⟨(C9_response_modes tgWorldAutoReply sampleStoredMessage brevoWorldNullChat
      sampleVisitor sampleMsg "whatsapp" apiWorldOk apiBodyValid).1
      sampleAutoReply (by decide),
   (C9_response_modes tgWorldAutoReply sampleStoredMessage brevoWorldNullChat
      sampleVisitor sampleMsg "whatsapp" apiWorldOk apiBodyValid).2.2.1⟩

/-! ## C4–C6: responder thread lifecycle, failure fallback, bounded polling -/

theorem composeImageReply_effects (d : String) (p : Except String String × RespEffects) :
    (composeImageReply d p).2 = p.2 := by
  rcases p with ⟨r, eff⟩
  cases r <;> rfl

theorem composeAudioReply_effects (t : String) (p : Except String String × RespEffects) :
    (composeAudioReply t p).2 = p.2 := by
  rcases p with ⟨r, eff⟩
  cases r <;> rfl

/-- With an existing (non-falsy) thread handle the text path creates no thread
and saves no chat. -/
theorem handleTextMessage_effects_existing (w : AIWorld) (m : Message) (tid : Option String)
    (htid : strFalsy tid = false) :
    (handleTextMessage w m tid).2 = ⟨[], []⟩ := by
  unfold handleTextMessage
  cases w.assistantId <;> simp [htid]

/-- With a falsy handle the text path creates exactly one thread and
immediately persists it onto the looked-up chat. -/
theorem handleTextMessage_effects_fresh (w : AIWorld) (m : Message) (tid : Option String)
    (aid tidNew : String) (chat : Chat)
    (h1 : w.assistantId = some aid) (h2 : strFalsy tid = true)
    (h3 : w.threadCreate = .ok tidNew) (h4 : w.chatLookup = some chat)
    (h5 : w.saveChatResult = .ok ()) :
    (handleTextMessage w m tid).2
      = ⟨[tidNew], [{ chat with openAIThreadId := some tidNew }]⟩ := by
  simp [handleTextMessage, h1, h2, h3, h4, h5]

def chatWithThread : Chat :=
  { id := some "c1", platformChatId := some "42", source := "telegram", name := "Ana",
    updated := 0, autoMode := true, openAIThreadId := some "th1" }

def aiWorldOk : AIWorld :=
  { assistantId := some "asst", threadCreate := .ok "th2",
    chatLookup := some chatWithThread, saveChatResult := .ok (),
    msgCreate := .ok (), runCreate := .ok "run1",
    runStatus := fun _ => "completed",
    listLatest := .ok (some { role := "assistant", contentType := "text", text := "Answer" }) }

def imgWorldOk : ImgWorld :=
  { mediaRecordFound := true, fetch := .ok, visionResult := .ok (some "a cat") }

def audioWorldOk : AudioWorld :=
  { mediaRecordFound := true, fetch := .ok, convertThrows := false,
    transcriptionThrows := false, transcriptionOk := true, transcript := some "hello" }

def sampleImageMessage : Message :=
  { id := some "m5", platformMessageId := some "5", source := "telegram", chatId := "c1",
    type := "image", content := "look", mediaFileId := some "f1", isIncoming := true,
    timestamp := 0, senderId := "9", senderName := some "Ana", responseMode := "manual" }

def sampleTextMessage : Message :=
  { id := some "m6", platformMessageId := some "6", source := "telegram", chatId := "c1",
    type := "text", content := "hi", mediaFileId := none, isIncoming := true,
    timestamp := 0, senderId := "9", senderName := some "Ana", responseMode := "manual" }

/-- C4 counterexample.  A chat that already carries thread handle "th1"
receives an automated response for an image message: the responder creates a
fresh thread "th2" and persists the chat with the new handle — the handle does
not remain stable across image-message automated responses. -/
theorem C4_thread_overwrite_counterexample :
    (getAIResponse aiWorldOk imgWorldOk audioWorldOk sampleImageMessage (some "th1")).2
      = { threadsCreated := ["th2"],
          chatSaves := [{ chatWithThread with openAIThreadId := some "th2" }] } ∧
    chatWithThread.openAIThreadId = some "th1" := by
  constructor
  · simp [getAIResponse, dispatchMessage, handleImageMessage, handleTextMessage, runThread,
      pollRunAux, isTerminalStatus, composeImageReply, aiWorldOk, imgWorldOk, audioWorldOk,
      sampleImageMessage, strFalsy, jsOr, chatWithThread]
  · rfl

/-- C4 amended.  `openAIThreadId` is created lazily and persisted immediately
on the first automated text response, and automated text responses with an
existing handle never create or overwrite one; but each automated image or
audio response re-enters the text path with no handle, so it always creates a
fresh thread and overwrites the chat's persisted handle. -/
theorem C4_thread_lifecycle (w : AIWorld) (iw : ImgWorld) (aw : AudioWorld)
    (mT mI mA : Message) (tid : Option String) (aid tidNew : String) (chat : Chat)
    (fidI fidA t : String)
    (h1 : w.assistantId = some aid) (h3 : w.threadCreate = .ok tidNew)
    (h4 : w.chatLookup = some chat) (h5 : w.saveChatResult = .ok ())
    (htid : strFalsy tid = false)
    (hI1 : mI.mediaFileId = some fidI) (hI2 : iw.mediaRecordFound = true)
    (hI3 : iw.fetch = .ok) (hI4 : iw.visionResult = .ok (some "a cat"))
    (hA1 : mA.mediaFileId = some fidA) (hA2 : aw.mediaRecordFound = true)
    (hA3 : aw.fetch = .ok) (hA4 : aw.convertThrows = false)
    (hA5 : aw.transcriptionThrows = false) (hA6 : aw.transcriptionOk = true)
    (hA7 : aw.transcript = some t) (hA8 : t ≠ "")
    (hA9 : jsTrim t ≠ "") :
    (handleTextMessage w mT tid).2 = ⟨[], []⟩ ∧
    (handleTextMessage w mT none).2
      = ⟨[tidNew], [{ chat with openAIThreadId := some tidNew }]⟩ ∧
    (handleImageMessage w iw mI).2
      = ⟨[tidNew], [{ chat with openAIThreadId := some tidNew }]⟩ ∧
    (handleAudioMessage w aw mA).2
      = ⟨[tidNew], [{ chat with openAIThreadId := some tidNew }]⟩ := by
  refine ⟨handleTextMessage_effects_existing w mT tid htid,
    handleTextMessage_effects_fresh w mT none aid tidNew chat h1 rfl h3 h4 h5, ?_, ?_⟩
  · simp [handleImageMessage, hI1, hI2, hI3, hI4, composeImageReply_effects]
    exact handleTextMessage_effects_fresh w _ none aid tidNew chat h1 rfl h3 h4 h5
  · simp [handleAudioMessage, hA1, hA2, hA3, hA4, hA5, hA6, hA7, hA8, hA9, strFalsy,
      composeAudioReply_effects]
    exact handleTextMessage_effects_fresh w _ none aid tidNew chat h1 rfl h3 h4 h5

/-- C4 witness: the concrete success worlds exercising all four paths. -/
theorem C4_thread_lifecycle_witness :
    (handleTextMessage aiWorldOk sampleTextMessage (some "th1")).2 = ⟨[], []⟩ ∧
    (handleTextMessage aiWorldOk sampleTextMessage none).2
      = ⟨["th2"], [{ chatWithThread with openAIThreadId := some "th2" }]⟩ ∧
    (handleImageMessage aiWorldOk imgWorldOk sampleImageMessage).2
      = ⟨["th2"], [{ chatWithThread with openAIThreadId := some "th2" }]⟩ ∧
    (handleAudioMessage aiWorldOk audioWorldOk sampleImageMessage).2
      = ⟨["th2"], [{ chatWithThread with openAIThreadId := some "th2" }]⟩ :=
  C4_thread_lifecycle aiWorldOk imgWorldOk audioWorldOk
    sampleTextMessage sampleImageMessage sampleImageMessage (some "th1")
    "asst" "th2" chatWithThread "f1" "f1" "hello"
    rfl rfl rfl rfl (by decide) rfl (by decide) rfl rfl rfl (by decide) rfl
    (by decide) (by decide) rfl (by decide) (by decide) (by decide)

/-- An error reaching `getAIResponse`'s top-level catch becomes the fixed
apology string. -/
theorem getAIResponse_of_dispatch_error (w : AIWorld) (iw : ImgWorld) (aw : AudioWorld)
    (m : Message) (tid : Option String) (e : String)
    (h : (dispatchMessage w iw aw m tid).1 = .error e) :
    (getAIResponse w iw aw m tid).1 = apologyReply := by
  unfold getAIResponse
  rcases hd : dispatchMessage w iw aw m tid with ⟨r, eff⟩
  rw [hd] at h
  simp only at h
  subst h
  rfl

def aiWorldRunFailed : AIWorld :=
  { assistantId := some "asst", threadCreate := .ok "th2",
    chatLookup := some chatWithThread, saveChatResult := .ok (),
    msgCreate := .ok (), runCreate := .ok "run1",
    runStatus := fun _ => "failed", listLatest := .ok none }

def imgWorldVisionFail : ImgWorld :=
  { mediaRecordFound := true, fetch := .ok, visionResult := .error "vision boom" }

def audioWorldTransFail : AudioWorld :=
  { mediaRecordFound := true, fetch := .ok, convertThrows := false,
    transcriptionThrows := true, transcriptionOk := false, transcript := none }

def sampleAudioMessage : Message :=
  { id := some "m7", platformMessageId := some "7", source := "whatsapp", chatId := "c1",
    type := "audio", content := "", mediaFileId := some "f2", isIncoming := true,
    timestamp := 0, senderId := "9", senderName := some "Ana", responseMode := "manual" }

/-- C5 counterexample.  An exception raised at the vision stage is absorbed by
`handleImageMessage`'s inner catch into the fixed storage-error string — it
never reaches `getAIResponse`'s catch, and the reply is provably not the
apology string the claim requires for exceptions at that stage. -/
theorem C5_vision_exception_counterexample :
    (getAIResponse aiWorldOk imgWorldVisionFail audioWorldOk sampleImageMessage
      (some "th1")).1 = "Не удалось получить изображение из хранилища." ∧
    ("Не удалось получить изображение из хранилища." : String) ≠ apologyReply :=
  ⟨rfl, by decide⟩

/-- C5 amended.  `getAIResponse` never propagates an exception (it is a total
function into plain reply strings): an exception that reaches its top-level
catch — thread creation, run submission, polling, or reply retrieval on the
text path — yields the fixed apology string; but exceptions at the media
retrieval, vision and transcription stages are absorbed by the inner catches
of the image/audio handlers into their own fixed error strings and never reach
the top-level catch, so those replies differ from the apology. -/
theorem C5_exception_handling (w : AIWorld) (iw iwV : ImgWorld) (aw awT : AudioWorld)
    (m mI mA : Message) (tid : Option String) (e eV : String) (fidI fidA : String)
    (ha : (dispatchMessage w iw aw m tid).1 = .error e)
    (hI0 : mI.type = "image") (hI1 : mI.mediaFileId = some fidI)
    (hI2 : iwV.mediaRecordFound = true) (hI3 : iwV.fetch = .ok)
    (hI4 : iwV.visionResult = .error eV)
    (hA0 : mA.type = "audio") (hA1 : mA.mediaFileId = some fidA)
    (hA2 : awT.mediaRecordFound = true) (hA3 : awT.fetch = .ok)
    (hA4 : awT.convertThrows = false) (hA5 : awT.transcriptionThrows = true) :
    (getAIResponse w iw aw m tid).1 = apologyReply ∧
    (getAIResponse w iwV aw mI tid).1 = "Не удалось получить изображение из хранилища." ∧
    (getAIResponse w iw awT mA tid).1 = "Произошла ошибка при обработке аудиосообщения." := by
  refine ⟨getAIResponse_of_dispatch_error w iw aw m tid e ha, ?_, ?_⟩
  · simp [getAIResponse, dispatchMessage, hI0, handleImageMessage, hI1, hI2, hI3, hI4]
  · simp [getAIResponse, dispatchMessage, hA0, handleAudioMessage, hA1, hA2, hA3, hA4, hA5]

/-- C5 witness: a failed text run (apology), a vision-stage exception and a
transcription-stage exception (absorbed into their own fixed strings). -/
theorem C5_exception_handling_witness :
    (getAIResponse aiWorldRunFailed imgWorldOk audioWorldOk sampleTextMessage
      (some "th1")).1 = apologyReply ∧
    (getAIResponse aiWorldRunFailed imgWorldVisionFail audioWorldOk sampleImageMessage
      (some "th1")).1 = "Не удалось получить изображение из хранилища." ∧
    (getAIResponse aiWorldRunFailed imgWorldOk audioWorldTransFail sampleAudioMessage
      (some "th1")).1 = "Произошла ошибка при обработке аудиосообщения." :=
  C5_exception_handling aiWorldRunFailed imgWorldOk imgWorldVisionFail audioWorldOk
    audioWorldTransFail sampleTextMessage sampleImageMessage sampleAudioMessage
    (some "th1") "Run failed with status failed" "vision boom" "f1" "f2"
    (by simp [dispatchMessage, handleTextMessage, runThread, pollRunAux, isTerminalStatus,
      aiWorldRunFailed, sampleTextMessage, strFalsy])
    rfl rfl rfl rfl rfl rfl rfl rfl rfl rfl rfl

/-- The polling loop aborts on every run that never reports "completed": with
the fixed 1000 ms interval and 30000 ms deadline of the source, after at most
31 non-completed polls the elapsed-time guard fires, unless a terminal status
aborted the loop earlier. -/
theorem pollRunAux_aborts (status : Nat → String) (hnc : ∀ n, status n ≠ "completed") :
    ∀ fuel j, 30 < fuel + j →
      ∃ e, pollRunAux status j = .error e ∧
        (e = "Response timed out after 30 seconds" ∨
         ∃ k, isTerminalStatus (status k) = true ∧ e = "Run failed with status " ++ status k) := by
  intro fuel
  induction fuel with
  | zero =>
    intro j hj
    have hc : (status j == "completed") = false := by
      simpa using hnc j
    by_cases ht : isTerminalStatus (status j) = true
    · exact ⟨_, by rw [pollRunAux]; simp [hc, ht], Or.inr ⟨j, ht, rfl⟩⟩
    · have hto : j * 1000 > 30000 := by omega
      exact ⟨_, by rw [pollRunAux]; simp [hc, ht, hto], Or.inl rfl⟩
  | succ fuel ih =>
    intro j hj
    have hc : (status j == "completed") = false := by
      simpa using hnc j
    by_cases ht : isTerminalStatus (status j) = true
    · exact ⟨_, by rw [pollRunAux]; simp [hc, ht], Or.inr ⟨j, ht, rfl⟩⟩
    · by_cases hto : j * 1000 > 30000
      · exact ⟨_, by rw [pollRunAux]; simp [hc, ht, hto], Or.inl rfl⟩
      · obtain ⟨e, he, hor⟩ := ih (j + 1) (by omega)
        exact ⟨e, by rw [pollRunAux]; simp [hc, ht, hto, he], hor⟩

/-- C6.  For a run that never reaches "completed", the 1 s / 30 s polling loop
always terminates — aborting with either the timeout error or a terminal-status
error — and the caller of `getAIResponse` receives the fallback apology rather
than a hang.  (Termination for every status stream is witnessed by `pollRunAux`
being a total function of the very `n * 1000 > 30000` deadline check of the
source.) -/
theorem C6_poll_bounded (w : AIWorld) (iw : ImgWorld) (aw : AudioWorld)
    (m : Message) (tid : Option String) (aid rid : String)
    (hnc : ∀ n, w.runStatus n ≠ "completed")
    (htype : m.type = "text") (htid : strFalsy tid = false)
    (h1 : w.assistantId = some aid) (hmc : w.msgCreate = .ok ())
    (hrc : w.runCreate = .ok rid) :
    (∃ e, runThread w m = .error e ∧
      (e = "Response timed out after 30 seconds" ∨
       ∃ k, isTerminalStatus (w.runStatus k) = true
            ∧ e = "Run failed with status " ++ w.runStatus k)) ∧
    (getAIResponse w iw aw m tid).1 = apologyReply := by
  obtain ⟨e, he, hor⟩ := pollRunAux_aborts w.runStatus hnc 31 0 (by omega)
  have hrt : runThread w m = .error e := by
    simp [runThread, hmc, hrc, he]
  refine ⟨⟨e, hrt, hor⟩, ?_⟩
  apply getAIResponse_of_dispatch_error (e := e)
  simp [dispatchMessage, htype, handleTextMessage, h1, htid, hrt]

def aiWorldStuck : AIWorld :=
  { assistantId := some "asst", threadCreate := .ok "th2",
    chatLookup := some chatWithThread, saveChatResult := .ok (),
    msgCreate := .ok (), runCreate := .ok "run1",
    runStatus := fun _ => "in_progress", listLatest := .ok none }

/-- C6 witness: a run stuck on "in_progress" forever. -/
theorem C6_poll_bounded_witness :
    (∃ e, runThread aiWorldStuck sampleTextMessage = .error e ∧
      (e = "Response timed out after 30 seconds" ∨
       ∃ k, isTerminalStatus (aiWorldStuck.runStatus k) = true
            ∧ e = "Run failed with status " ++ aiWorldStuck.runStatus k)) ∧
    (getAIResponse aiWorldStuck imgWorldOk audioWorldOk sampleTextMessage
      (some "th1")).1 = apologyReply :=
  C6_poll_bounded aiWorldStuck imgWorldOk audioWorldOk sampleTextMessage (some "th1")
    "asst" "run1" (fun n => by simp [aiWorldStuck]) (by decide) (by decide)
    rfl rfl rfl

end AutoReply
